/-
Verification of the e-mail campaign pipeline (src/main.py) against its
natural-language specification.

The Python source is shallowly embedded: pure functions become Lean
functions, the mutable campaign state (`sent_titles`, the JSON history
file, the dispatch side effects) becomes explicit state passing, and the
outcome of each SMTP send is supplied by an oracle `Nat → Bool` indexed by
the number of dispatch attempts made so far.  Python `set`s are modelled
as deduplicated lists (membership and multiplicity are what the claims
are about; `list(set(..))` iteration order is unspecified in Python and
is fixed arbitrarily by `List.dedup` / `List.insert` here).
-/
import Mathlib

set_option maxRecDepth 4000

/-! ## Python string primitives

Structural-recursion models of the `str` operations the source uses
(`strip`, `split(',')`, `lower`, `', '.join`, `in`), defined on the
character list so that they evaluate inside the kernel. -/

/-- Characters removed by Python `str.strip()` (ASCII whitespace). -/
def isSpaceChar (c : Char) : Bool :=
  c == ' ' || c == '\t' || c == '\n' || c == '\r' || c == '\x0b' || c == '\x0c'

/-- Python `s.strip()`. -/
def pyStrip (s : String) : String :=
  ⟨((s.data.dropWhile isSpaceChar).reverse.dropWhile isSpaceChar).reverse⟩

/-- ASCII lowering of one character, as Python `str.lower()` does on the
ASCII inputs this program compares. -/
def lowerChar (c : Char) : Char :=
  if 'A' ≤ c ∧ c ≤ 'Z' then Char.ofNat (c.toNat + 32) else c

/-- Python `s.lower()` (ASCII fragment). -/
def pyLower (s : String) : String := ⟨s.data.map lowerChar⟩

/-- Python `s.split(sep)` for a one-character separator, on char lists:
`"".split(',') = [""]`, `"a,".split(',') = ["a", ""]`. -/
def splitOnChar (sep : Char) : List Char → List (List Char)
  | [] => [[]]
  | c :: rest =>
    match splitOnChar sep rest with
    | [] => if c = sep then [[], []] else [[c]]
    | h :: t => if c = sep then [] :: h :: t else (c :: h) :: t

/-- Python `sep.join(parts)`. -/
def pyJoin (sep : String) : List String → String
  | [] => ""
  | [a] => a
  | a :: b :: rest => a ++ sep ++ pyJoin sep (b :: rest)

/-! ## Record model (`ActivityType`, `Speaker`) -/

inductive ActivityType where
  | palestra
  | tutorial
deriving DecidableEq

/-- Embeds `ActivityType.value` / `Speaker.activity_display_name`. -/
def ActivityType.value : ActivityType → String
  | .palestra => "palestra"
  | .tutorial => "tutorial"

structure Speaker where
  name : String
  email : String
  title : String
  theme : String
  all_authors : String
  activity_type : ActivityType
deriving DecidableEq

/-- Embeds the `Speaker.is_tutorial` property. -/
def Speaker.is_tutorial (s : Speaker) : Bool :=
  s.activity_type = ActivityType.tutorial

/-! ## Configuration (`EmailConfig`) -/

structure EmailConfig where
  smtp_server : String
  smtp_port : Nat
  sender_email : String
  sender_password : String
  sender_name : String
  sheet_url : String
deriving DecidableEq

/-- Embeds `EmailConfig.validate`: one diagnostic per missing item, checking
exactly the three fields the source checks (empty string = Python falsy). -/
def EmailConfig.validate (c : EmailConfig) : List String :=
  (if c.sender_email = "" then ["Email do remetente (GMAIL_EMAIL) não configurado"] else []) ++
  (if c.sender_password = "" then ["Senha do remetente (GMAIL_APP_PASSWORD) não configurada"] else []) ++
  (if c.sheet_url = "" then ["URL da planilha (SHEET_URL) não configurada"] else [])

/-- Outcome of the validation gate at the top of
`EmailCampaignManager.run`: either the run aborts with the diagnostics, or
it proceeds to the spreadsheet download (the fetch). -/
inductive RunGate where
  | aborted (diagnostics : List String)
  | proceeded
deriving DecidableEq

/-- The prefix of `EmailCampaignManager.run` up to the fetch: log each
validation error and return, else continue to
`SpreadsheetDownloader.download`. -/
def run_gate (c : EmailConfig) : RunGate :=
  if c.validate.isEmpty then .proceeded else .aborted c.validate

/-! ## CSV parsing (`CsvParser`) -/

/-- One parsed CSV row, as the `DictReader` dict restricted to the keys
the parser reads; a missing column is the empty string (`row.get(k, '')`). -/
structure Row where
  ATIVIDADE : String
  AUTOR1 : String
  AUTOR2 : String
  AUTOR3 : String
  EMAIL : String
  TEMA : String
deriving DecidableEq

namespace CsvParser

/-- Embeds `CsvParser._extract_authors`: the stripped non-empty entries of
AUTOR1..AUTOR3, in column order. -/
def extract_authors (row : Row) : List String :=
  (([row.AUTOR1, row.AUTOR2, row.AUTOR3]).map pyStrip).filter (fun a => a != "")

/-- Embeds `CsvParser._get_activity_type`. -/
def get_activity_type (activity : String) : ActivityType :=
  if pyLower activity = "tutorial" then .tutorial else .palestra

/-- Embeds `CsvParser._parse_emails`. -/
def parse_emails (email : String) : List String :=
  if email.data.contains ',' then
    (splitOnChar ',' email.data).map (fun l => pyStrip ⟨l⟩)
  else [email]

/-- Embeds `CsvParser._parse_row`. -/
def parse_row (row : Row) : List Speaker :=
  let activity := pyStrip row.ATIVIDADE
  let theme := pyStrip row.TEMA
  let email := pyStrip row.EMAIL
  let authors := extract_authors row
  if activity = "" ∨ theme = "" ∨ email = "" ∨ authors = [] then []
  else
    let activity_type := get_activity_type activity
    let emails := parse_emails email
    emails.enum.filterMap fun p =>
      if p.2.data.contains '@' then
        some { name := authors.getD p.1 (authors.headD ""),
               email := p.2,
               title := theme,
               theme := theme,
               all_authors := if authors.length > 1 then pyJoin ", " authors
                              else authors.headD "",
               activity_type := activity_type }
      else none

/-- Embeds `CsvParser.parse`: concatenation of the per-row results, in row order. -/
def parse (rows : List Row) : List Speaker :=
  (rows.map parse_row).flatten

end CsvParser

/-! ## History store (`JsonDataStore`) -/

/-- One entry of the `details` log.  `titulo = none` models a log item
that is not a dict with a `'titulo'` key (the `load` recovery path skips
such items). -/
structure DetailEntry where
  email : String
  nome : String
  titulo : Option String
  timestamp : String
deriving DecidableEq

/-- The persisted JSON object.  `none` models an absent key; `extra`
carries every other top-level key (opaque values of type `α`) that a
previously written file may contain. -/
structure JsonData (α : Type) where
  sent_titles : Option (List String)
  details : Option (List DetailEntry)
  last_update : Option String
  extra : List (String × α)
deriving DecidableEq

/-- State of the durable file backing the store. -/
inductive FileState (α : Type) where
  | absent
  | corrupt
  | valid (d : JsonData α)
deriving DecidableEq

namespace JsonDataStore

/-- Embeds `JsonDataStore._load_data`: a missing file, and any file whose read or
JSON decode raises, both become the default structure. -/
def load_data : FileState α → JsonData α
  | .absent => ⟨some [], some [], none, []⟩
  | .corrupt => ⟨some [], some [], none, []⟩
  | .valid d => d

/-- Embeds `JsonDataStore.load`: the dedup set (`set(...)` modelled by
`List.dedup`), reconstructed from the `details` log when the stored
`sent_titles` list is empty. -/
def load (d : JsonData α) : List String :=
  let s := (d.sent_titles.getD []).dedup
  if s.isEmpty then
    match d.details with
    | some ds => (ds.filterMap (fun e => e.titulo)).dedup
    | none => s
  else s

/-- Embeds `JsonDataStore.save`: re-derive the dedup set, add the speaker's
title, append one detail entry, stamp `last_update`, and rewrite the
whole structure. -/
def save (d : JsonData α) (s : Speaker) (now : String) : JsonData α :=
  { sent_titles := some ((load d).insert s.title)
    details := some ((d.details.getD []) ++ [⟨s.email, s.name, some s.title, now⟩])
    last_update := some now
    extra := d.extra }

end JsonDataStore

/-! ## Message renderer (`EmailTemplate`) -/

namespace EmailTemplate

/-- The `coauthors_info` slot of `EmailTemplate._build_context`: non-empty
exactly when `','` occurs in `all_authors`. -/
def coauthors_info (s : Speaker) : String :=
  if ',' ∈ s.all_authors.data then "\n👥 Coautores: " ++ s.all_authors else ""

/-- The template text before the `{coauthors_info}` slot, with the other
context slots substituted. -/
def renderPre (s : Speaker) : String :=
  "Prezad@ " ++ s.name ++
  ",\n\n    É com grande satisfação que informamos que " ++
  (if s.is_tutorial then "seu" else "sua") ++ " " ++
  s.activity_type.value ++ ", \"" ++ s.title ++ "\", foi aprovad" ++
  (if s.is_tutorial then "o" else "a") ++
  " para a conferência! 🚀\n\nO evento acontecerá nos dias 04, 05 e 06 de julho de 2025, em Belém do Pará, e contará com a participação de entusiastas, desenvolvedores e especialistas em Python de todo o país. Sua contribuição será fundamental para enriquecer nossa programação!\n\nPróximos passos:\n\nPara confirmar sua participação como " ++
  (if s.is_tutorial then "instrutor(a) de tutorial" else "palestrante") ++
  ", pedimos que nos envie sua confirmação até o dia 10/06/2025 respondendo a este e-mail.\n\nCaso não recebamos sua confirmação até essa data, entenderemos que não há disponibilidade e sua vaga poderá ser realocada.\n\nInformações importantes:\n\n📅 Datas do evento: 04, 05 e 06 de julho de 2025\n📍 Local: Belém - PA\n⏰ " ++
  (if s.is_tutorial then "Duração do tutorial" else "Duração da palestra") ++
  ": 45 minutos\n🎯 Tema: " ++ s.theme ++ "\n"

/-- The template text after the `{coauthors_info}` slot. -/
def renderPost : String :=
  "\n\nFicamos à disposição para qualquer dúvida e ansiosos pela sua confirmação!\n\nAtenciosamente,\n    Equipe Organizadora\n    Contato: contato@evento.org | Site: https://evento.org"

/-- Embeds `EmailTemplate.render`: `TEMPLATE.format(**context)`. -/
def render (s : Speaker) : String :=
  renderPre s ++ coauthors_info s ++ renderPost

end EmailTemplate

/-! ## Campaign orchestrator (`EmailCampaignManager`)

The mutable state touched by `_process_speakers` / `_send_to_speaker`:
the in-memory `sent_titles` set, the durable store, plus explicit logs of
the render and dispatch calls performed.  The result of each
`EmailService.send` is given by `oracle k`, where `k` dispatch attempts
happened before it. -/

structure RunState (α : Type) where
  sent_titles : List String
  store : JsonData α
  renders : List Speaker
  dispatches : List (Speaker × Bool)
deriving DecidableEq

namespace EmailCampaignManager

/-- Embeds `EmailCampaignManager._send_to_speaker`: skip titles already in
`sent_titles`, else render; in dry-run report success; else dispatch and,
on success, persist and add the title to the in-memory set. -/
def send_to_speaker (dryRun : Bool) (oracle : Nat → Bool) (now : String)
    (st : RunState α) (s : Speaker) : Bool × RunState α :=
  if s.title ∈ st.sent_titles then (true, st)
  else
    let st1 := { st with renders := st.renders ++ [s] }
    if dryRun then (true, st1)
    else
      let ok := oracle st1.dispatches.length
      let st2 := { st1 with dispatches := st1.dispatches ++ [(s, ok)] }
      if ok then
        (true, { st2 with store := JsonDataStore.save st2.store s now,
                          sent_titles := st2.sent_titles.insert s.title })
      else (false, st2)

/-- Embeds `EmailCampaignManager._process_speakers`: handle the records in
order, counting successes and failures. -/
def process_speakers (dryRun : Bool) (oracle : Nat → Bool) (now : String) :
    List Speaker → RunState α → Nat × Nat × RunState α
  | [], st => (0, 0, st)
  | s :: rest, st =>
    let r := send_to_speaker dryRun oracle now st s
    let p := process_speakers dryRun oracle now rest r.2
    if r.1 then (p.1 + 1, p.2.1, p.2.2) else (p.1, p.2.1 + 1, p.2.2)

end EmailCampaignManager

/-! ## Helper lemmas -/

/-- Writes a `filterMap` of a guarded `some` as `filter` then `map`. -/
lemma filterMap_ite {α β : Type} (c : α → Bool) (f : α → β) (l : List α) :
    (l.filterMap fun a => if c a then some (f a) else none) = (l.filter c).map f := by
  induction l with
  | nil => rfl
  | cons a t ih => by_cases h : c a <;> simp [h, ih]

namespace EmailTemplate

lemma data_infix_of_eq {m l : String} (p q : String) (h : l = p ++ m ++ q) :
    m.data <:+: l.data := by
  subst h; simp [String.data_append]

lemma coLine_infix_render (s : Speaker) (h : ',' ∈ s.all_authors.data) :
    ("\n👥 Coautores: " ++ s.all_authors).data <:+: (render s).data :=
  data_infix_of_eq (renderPre s) renderPost (by simp [render, coauthors_info, h])

lemma not_mem_append_char {c : Char} {a b : List Char} (ha : c ∉ a) (hb : c ∉ b) :
    c ∉ a ++ b := fun h => (List.mem_append.1 h).elim ha hb

lemma not_mem_str_append {c : Char} {a b : String}
    (ha : c ∉ a.data) (hb : c ∉ b.data) : c ∉ (a ++ b).data := by
  rw [String.data_append]
  exact not_mem_append_char ha hb

lemma not_mem_ite_str {c : Char} (b : Bool) {x y : String}
    (hx : c ∉ x.data) (hy : c ∉ y.data) : c ∉ (if b then x else y).data := by
  cases b
  · exact hy
  · exact hx

lemma groupChar_not_mem_render (s : Speaker) (hm : ',' ∉ s.all_authors.data)
    (hn : '👥' ∉ s.name.data) (ht : '👥' ∉ s.title.data) (hh : '👥' ∉ s.theme.data) :
    '👥' ∉ (render s).data := by
  have hco : coauthors_info s = "" := by rw [coauthors_info, if_neg hm]
  have hval : '👥' ∉ s.activity_type.value.data := by
    cases hA : s.activity_type
    · decide
    · decide
  rw [render, hco, String.append_empty, renderPre]
  refine not_mem_str_append ?_ (by decide)
  refine not_mem_str_append ?_ (by decide)
  refine not_mem_str_append ?_ hh
  refine not_mem_str_append ?_ (by decide)
  refine not_mem_str_append ?_ (not_mem_ite_str _ (by decide) (by decide))
  refine not_mem_str_append ?_ (by decide)
  refine not_mem_str_append ?_ (not_mem_ite_str _ (by decide) (by decide))
  refine not_mem_str_append ?_ (by decide)
  refine not_mem_str_append ?_ (not_mem_ite_str _ (by decide) (by decide))
  refine not_mem_str_append ?_ (by decide)
  refine not_mem_str_append ?_ ht
  refine not_mem_str_append ?_ (by decide)
  refine not_mem_str_append ?_ hval
  refine not_mem_str_append ?_ (by decide)
  refine not_mem_str_append ?_ (not_mem_ite_str _ (by decide) (by decide))
  refine not_mem_str_append ?_ (by decide)
  refine not_mem_str_append ?_ hn
  decide

lemma blank_line_after_theme (s : Speaker) (hm : ',' ∉ s.all_authors.data) :
    (s.theme ++ "\n\n\nFicamos").data <:+: (render s).data := by
  apply data_infix_of_eq
    ("Prezad@ " ++ s.name ++
      ",\n\n    É com grande satisfação que informamos que " ++
      (if s.is_tutorial then "seu" else "sua") ++ " " ++
      s.activity_type.value ++ ", \"" ++ s.title ++ "\", foi aprovad" ++
      (if s.is_tutorial then "o" else "a") ++
      " para a conferência! 🚀\n\nO evento acontecerá nos dias 04, 05 e 06 de julho de 2025, em Belém do Pará, e contará com a participação de entusiastas, desenvolvedores e especialistas em Python de todo o país. Sua contribuição será fundamental para enriquecer nossa programação!\n\nPróximos passos:\n\nPara confirmar sua participação como " ++
      (if s.is_tutorial then "instrutor(a) de tutorial" else "palestrante") ++
      ", pedimos que nos envie sua confirmação até o dia 10/06/2025 respondendo a este e-mail.\n\nCaso não recebamos sua confirmação até essa data, entenderemos que não há disponibilidade e sua vaga poderá ser realocada.\n\nInformações importantes:\n\n📅 Datas do evento: 04, 05 e 06 de julho de 2025\n📍 Local: Belém - PA\n⏰ " ++
      (if s.is_tutorial then "Duração do tutorial" else "Duração da palestra") ++
      ": 45 minutos\n🎯 Tema: ")
    (" à disposição para qualquer dúvida e ansiosos pela sua confirmação!\n\nAtenciosamente,\n    Equipe Organizadora\n    Contato: contato@evento.org | Site: https://evento.org")
  rw [render, show coauthors_info s = "" from by simp [coauthors_info, hm],
    String.append_empty, renderPre, renderPost]
  simp [String.append_assoc]

end EmailTemplate

namespace EmailCampaignManager

/-- Invariant: every dispatch that succeeded has its title in the
in-memory set. -/
def goodDispatches {α : Type} (st : RunState α) : Prop :=
  ∀ p ∈ st.dispatches, p.2 = true → p.1.title ∈ st.sent_titles

lemma send_to_speaker_skip {α : Type} (dryRun : Bool) (oracle : Nat → Bool) (now : String)
    (st : RunState α) (s : Speaker) (h : s.title ∈ st.sent_titles) :
    send_to_speaker dryRun oracle now st s = (true, st) := by
  simp [send_to_speaker, h]

lemma send_to_speaker_dry {α : Type} (oracle : Nat → Bool) (now : String)
    (st : RunState α) (s : Speaker) :
    (send_to_speaker true oracle now st s).1 = true ∧
    (send_to_speaker true oracle now st s).2.sent_titles = st.sent_titles ∧
    (send_to_speaker true oracle now st s).2.store = st.store ∧
    (send_to_speaker true oracle now st s).2.dispatches = st.dispatches := by
  by_cases h : s.title ∈ st.sent_titles <;> simp [send_to_speaker, h]

lemma send_to_speaker_inv {α : Type} (dryRun : Bool) (oracle : Nat → Bool) (now : String)
    (st : RunState α) (s : Speaker)
    (hg : goodDispatches st)
    (hp : st.dispatches.Pairwise (fun a b => a.2 = true → a.1.title ≠ b.1.title)) :
    goodDispatches (send_to_speaker dryRun oracle now st s).2 ∧
    (send_to_speaker dryRun oracle now st s).2.dispatches.Pairwise
      (fun a b => a.2 = true → a.1.title ≠ b.1.title) := by
  by_cases h : s.title ∈ st.sent_titles
  · rw [send_to_speaker_skip dryRun oracle now st s h]
    exact ⟨hg, hp⟩
  · have hnew : ∀ ok : Bool,
        goodDispatches (α := α) ⟨if ok then st.sent_titles.insert s.title else st.sent_titles,
          if ok then JsonDataStore.save st.store s now else st.store,
          st.renders ++ [s], st.dispatches ++ [(s, ok)]⟩ ∧
        (st.dispatches ++ [(s, ok)]).Pairwise
          (fun a b => a.2 = true → a.1.title ≠ b.1.title) := by
      intro ok
      constructor
      · intro p hmem htrue
        rcases List.mem_append.1 hmem with hold | hlast
        · have hin := hg p hold htrue
          cases ok <;> simp [List.mem_insert_iff, hin]
        · simp at hlast
          subst hlast
          cases ok
          · cases htrue
          · simp [List.mem_insert_iff]

      · rw [List.pairwise_append]
        refine ⟨hp, by simp, ?_⟩
        intro a hmem b hb
        simp at hb
        subst hb
        intro hat heq
        exact h (heq ▸ hg a hmem hat)
    by_cases hd : dryRun
    · have : (send_to_speaker dryRun oracle now st s).2 = { st with renders := st.renders ++ [s] } := by
        simp [send_to_speaker, h, hd]
      rw [this]
      exact ⟨hg, hp⟩
    · by_cases hk : oracle st.dispatches.length
      · have : (send_to_speaker dryRun oracle now st s).2 =
            ⟨st.sent_titles.insert s.title, JsonDataStore.save st.store s now,
             st.renders ++ [s], st.dispatches ++ [(s, true)]⟩ := by
          simp [send_to_speaker, h, hd, hk]
        rw [this]
        simpa using hnew true
      · have : (send_to_speaker dryRun oracle now st s).2 =
            ⟨st.sent_titles, st.store, st.renders ++ [s], st.dispatches ++ [(s, false)]⟩ := by
          simp [send_to_speaker, h, hd, hk]
        rw [this]
        simpa using hnew false

lemma process_speakers_inv {α : Type} (dryRun : Bool) (oracle : Nat → Bool) (now : String)
    (l : List Speaker) (st : RunState α)
    (hg : goodDispatches st)
    (hp : st.dispatches.Pairwise (fun a b => a.2 = true → a.1.title ≠ b.1.title)) :
    (process_speakers dryRun oracle now l st).2.2.dispatches.Pairwise
      (fun a b => a.2 = true → a.1.title ≠ b.1.title) := by
  induction l generalizing st with
  | nil => simpa [process_speakers] using hp
  | cons s rest ih =>
    have hstep := send_to_speaker_inv dryRun oracle now st s hg hp
    have := ih (send_to_speaker dryRun oracle now st s).2 hstep.1 hstep.2
    by_cases hr : (send_to_speaker dryRun oracle now st s).1 <;>
      simp [process_speakers, hr, this]

lemma process_speakers_dry {α : Type} (oracle : Nat → Bool) (now : String)
    (l : List Speaker) (st : RunState α) :
    (process_speakers true oracle now l st).1 = l.length ∧
    (process_speakers true oracle now l st).2.1 = 0 ∧
    (process_speakers true oracle now l st).2.2.sent_titles = st.sent_titles ∧
    (process_speakers true oracle now l st).2.2.store = st.store ∧
    (process_speakers true oracle now l st).2.2.dispatches = st.dispatches := by
  induction l generalizing st with
  | nil => simp [process_speakers]
  | cons s rest ih =>
    have hd := send_to_speaker_dry oracle now st s
    have := ih (send_to_speaker true oracle now st s).2
    simp [process_speakers, hd.1]
    refine ⟨this.1, this.2.1, ?_, ?_, ?_⟩
    · rw [this.2.2.1, hd.2.1]
    · rw [this.2.2.2.1, hd.2.2.1]
    · rw [this.2.2.2.2, hd.2.2.2]

end EmailCampaignManager

namespace JsonDataStore

lemma load_nodup {α : Type} (d : JsonData α) : (load d).Nodup := by
  by_cases h : ((d.sent_titles.getD []).dedup).isEmpty
  · cases hd : d.details <;> simp [load, h, hd, List.nodup_dedup]
  · simp [load, h, List.nodup_dedup]

lemma insert_ne_nil {a : String} (l : List String) : l.insert a ≠ [] := by
  by_cases hm : a ∈ l
  · rw [List.insert_of_mem hm]; exact List.ne_nil_of_mem hm
  · rw [List.insert_of_not_mem hm]; exact List.cons_ne_nil a l

lemma load_save {α : Type} (d : JsonData α) (s : Speaker) (now : String) :
    load (save d s now) = (load d).insert s.title := by
  have hne : ((load d).insert s.title) ≠ [] := insert_ne_nil _
  have hnd : ((load d).insert s.title).Nodup := (load_nodup d).insert
  simp only [save]
  generalize hG : load d = L at hne hnd ⊢
  simp [load, List.dedup_eq_self.2 hnd, hne]

end JsonDataStore

/-! ## Concrete inputs used by witnesses and counterexamples -/

/-- A row with two e-mail addresses and a single author. -/
def exampleRow : Row := ⟨"palestra", "Alice", "", "", "a@x.com, b@y.com", "T"⟩

/-- A row whose single author name contains a comma. -/
def commaAuthorRow : Row := ⟨"palestra", "Doe, Jane", "", "", "a@x.com", "Tema X"⟩

/-- The one record parsed from `commaAuthorRow`. -/
def commaAuthorSpeaker : Speaker :=
  ⟨"Doe, Jane", "a@x.com", "Tema X", "Tema X", "Doe, Jane", .palestra⟩

/-- A speaker whose submission has two authors. -/
def twoAuthorSpeaker : Speaker := ⟨"Ana", "ana@x.com", "T", "T", "Ana, Bia", .palestra⟩

/-- A speaker with a single comma-free author, title "T". -/
def plainSpeaker : Speaker := ⟨"Bob", "bob@x.com", "T", "T", "Bob", .palestra⟩

/-- A second speaker for the same submission title "T". -/
def coSpeaker : Speaker := ⟨"Cid", "cid@y.com", "T", "T", "Cid", .palestra⟩

/-- An empty history structure, as written on first use. -/
def emptyData : JsonData String := ⟨some [], some [], none, []⟩

/-- A run state with nothing seen and nothing logged. -/
def emptyRun : RunState String := ⟨[], emptyData, [], []⟩

/-! ## Claims -/

/-- C7: for every record, `save(record)` followed by `load()` on a fresh
store instance constructed over the same durable file (its `_load_data`
reads the value just written) yields a set including `record.subject_key`. -/
theorem C7_save_load_round_trip {α : Type} (d : JsonData α) (s : Speaker) (now : String) :
    s.title ∈ JsonDataStore.load (JsonDataStore.load_data (.valid (JsonDataStore.save d s now))) := by
  show s.title ∈ JsonDataStore.load (JsonDataStore.save d s now)
  rw [JsonDataStore.load_save]
  exact List.mem_insert_self s.title _

/-- C10: `save` rewrites only the `sent_titles`, `details` and
`last_update` keys; every other top-level key of the loaded structure is
carried over unchanged into the rewritten file. -/
theorem C10_save_preserves_extra_keys {α : Type} (d : JsonData α) (s : Speaker) (now : String) :
    (JsonDataStore.save d s now).extra = d.extra := rfl

/-- C8: an absent or unparsable durable file loads as the empty set (and
`load`, being a total function, raises nothing); a stored structure with
an empty dedup list reconstructs the dedup set from the detail-log
entries that carry a `titulo` field. -/
theorem C8_corrupt_absent_and_recovery {α : Type} :
    JsonDataStore.load (JsonDataStore.load_data (.absent : FileState α)) = [] ∧
    JsonDataStore.load (JsonDataStore.load_data (.corrupt : FileState α)) = [] ∧
    ∀ (es : List DetailEntry) (lu : Option String) (ex : List (String × α)),
      JsonDataStore.load ⟨some [], some es, lu, ex⟩ =
        (es.filterMap (fun e => e.titulo)).dedup := by
  refine ⟨rfl, rfl, fun es lu ex => ?_⟩
  simp [JsonDataStore.load]

/-- C9: a data row whose activity, theme or e-mail field is empty after
trimming, or that has no non-empty author name, parses to zero records
(and `parse_row`, being total, raises nothing). -/
theorem C9_skip_incomplete_rows (row : Row)
    (h : pyStrip row.ATIVIDADE = "" ∨ pyStrip row.TEMA = "" ∨ pyStrip row.EMAIL = "" ∨
         CsvParser.extract_authors row = []) :
    CsvParser.parse_row row = [] := by
  simp only [CsvParser.parse_row]
  rw [if_pos h]

/-- C9 witness: a row whose theme is only whitespace parses to no records. -/
theorem C9_skip_incomplete_rows_witness :
    CsvParser.parse_row ⟨"palestra", "Alice", "", "", "a@x.com", "  "⟩ = [] :=
  C9_skip_incomplete_rows _ (Or.inr (Or.inl (by decide)))

/-- C6: calling `save` twice with records sharing one subject key leaves
that key exactly once in the persisted dedup list, while exactly two
entries are appended to the detail log. -/
theorem C6_save_idempotent_dedup {α : Type} (d : JsonData α) (s s' : Speaker)
    (now now' : String) (h : s'.title = s.title) :
    ((JsonDataStore.save (JsonDataStore.save d s now) s' now').sent_titles.getD []).count s.title = 1 ∧
    (JsonDataStore.save (JsonDataStore.save d s now) s' now').details =
      some ((d.details.getD []) ++
        [⟨s.email, s.name, some s.title, now⟩, ⟨s'.email, s'.name, some s'.title, now'⟩]) := by
  constructor
  · have h1 : (JsonDataStore.save (JsonDataStore.save d s now) s' now').sent_titles =
        some (((JsonDataStore.load d).insert s.title).insert s'.title) := by
      show some ((JsonDataStore.load (JsonDataStore.save d s now)).insert s'.title) = _
      rw [JsonDataStore.load_save]
    rw [h1, h, List.insert_of_mem (List.mem_insert_self s.title _)]
    exact List.count_eq_one_of_mem ((JsonDataStore.load_nodup d).insert)
      (List.mem_insert_self s.title _)
  · simp [JsonDataStore.save]

/-- C6 witness: two saves for title "T" on an empty store leave "T" once
in the dedup list and two entries in the detail log. -/
theorem C6_save_idempotent_dedup_witness :
    ((JsonDataStore.save (JsonDataStore.save emptyData plainSpeaker "t1") coSpeaker "t2").sent_titles.getD []).count "T" = 1 ∧
    (JsonDataStore.save (JsonDataStore.save emptyData plainSpeaker "t1") coSpeaker "t2").details =
      some [⟨"bob@x.com", "Bob", some "T", "t1"⟩, ⟨"cid@y.com", "Cid", some "T", "t2"⟩] := by
  have := C6_save_idempotent_dedup emptyData plainSpeaker coSpeaker "t1" "t2" rfl
  exact ⟨this.1, this.2.trans (by decide)⟩

/-- C2: for a row that is not skipped, one record is built per candidate
e-mail containing '@', in e-mail-list order; the name attached to the
candidate at list position `i` is `authors[i]` when that index exists and
`authors[0]` otherwise, and every record of the row carries the trimmed
theme as its subject key. -/
theorem C2_record_per_email (row : Row)
    (h1 : pyStrip row.ATIVIDADE ≠ "") (h2 : pyStrip row.TEMA ≠ "")
    (h3 : pyStrip row.EMAIL ≠ "") (h4 : CsvParser.extract_authors row ≠ []) :
    (CsvParser.parse_row row).map (fun r => (r.name, r.email)) =
      ((CsvParser.parse_emails (pyStrip row.EMAIL)).enum.filter
          (fun p => p.2.data.contains '@')).map
        (fun p => ((CsvParser.extract_authors row).getD p.1
                     ((CsvParser.extract_authors row).headD ""), p.2)) ∧
    ∀ r ∈ CsvParser.parse_row row, r.title = pyStrip row.TEMA := by
  have hguard : ¬ (pyStrip row.ATIVIDADE = "" ∨ pyStrip row.TEMA = "" ∨
      pyStrip row.EMAIL = "" ∨ CsvParser.extract_authors row = []) := by
    simp [h1, h2, h3, h4]
  constructor
  · simp only [CsvParser.parse_row]
    rw [if_neg hguard, filterMap_ite, List.map_map]
    rfl
  · intro r hr
    simp only [CsvParser.parse_row] at hr
    rw [if_neg hguard] at hr
    rcases List.mem_filterMap.1 hr with ⟨p, _, hsome⟩
    by_cases hc : p.2.data.contains '@'
    · rw [if_pos hc] at hsome
      cases hsome
      rfl
    · rw [if_neg hc] at hsome
      cases hsome

/-- C2 witness: the row with e-mail "a@x.com, b@y.com" and single author
"Alice" yields exactly two records, both named "Alice", with the two
addresses in order. -/
theorem C2_record_per_email_witness :
    (CsvParser.parse_row exampleRow).map (fun r => (r.name, r.email)) =
      [("Alice", "a@x.com"), ("Alice", "b@y.com")] :=
  ((C2_record_per_email exampleRow (by decide) (by decide) (by decide) (by decide)).1).trans
    (by decide)

/-- C3: a dry (simulated) run performs no dispatch and no persistence:
every record is counted a success, no failure is counted, and the
in-memory seen set, the durable store and the dispatch log are exactly
what they were before the run. -/
theorem C3_dry_run_is_pure {α : Type} (oracle : Nat → Bool) (now : String)
    (l : List Speaker) (st : RunState α) :
    (EmailCampaignManager.process_speakers true oracle now l st).1 = l.length ∧
    (EmailCampaignManager.process_speakers true oracle now l st).2.1 = 0 ∧
    (EmailCampaignManager.process_speakers true oracle now l st).2.2.sent_titles = st.sent_titles ∧
    (EmailCampaignManager.process_speakers true oracle now l st).2.2.store = st.store ∧
    (EmailCampaignManager.process_speakers true oracle now l st).2.2.dispatches = st.dispatches :=
  EmailCampaignManager.process_speakers_dry oracle now l st

/-- C1 counterexample: when the dispatch for the first co-author fails,
the record of the second co-author with the same subject key is
dispatched as well, so one run attempts two dispatches for the key "T" —
refuting the claim's consequence that no dispatch is ever attempted twice
for the same subject key. -/
theorem C1_counterexample :
    ((EmailCampaignManager.process_speakers false (fun _ => false) "t"
        [plainSpeaker, coSpeaker] emptyRun).2.2.dispatches.map (fun p => p.1.title)) = ["T", "T"] ∧
    ¬ ((EmailCampaignManager.process_speakers false (fun _ => false) "t"
        [plainSpeaker, coSpeaker] emptyRun).2.2.dispatches.map (fun p => p.1.title)).Nodup := by
  constructor
  · decide
  · decide

/-- C1 (amended): records are handled strictly in order, and any record
whose subject key is in the seen set when it is processed — whether
loaded at start or inserted mid-run by an earlier successful send for a
co-author — is counted an immediate success with no render, no dispatch
and no persistence; consequently, within one run, no dispatch is ever
attempted for a subject key once a dispatch for that key has succeeded
(after a failed dispatch the key may be attempted again for a later
co-author). -/
theorem C1_skip_seen_no_second_send {α : Type} (dryRun : Bool) (oracle : Nat → Bool)
    (now : String) (l : List Speaker) (st0 st : RunState α) (s : Speaker)
    (h0 : st0.dispatches = []) (hs : s.title ∈ st.sent_titles) :
    EmailCampaignManager.send_to_speaker dryRun oracle now st s = (true, st) ∧
    (EmailCampaignManager.process_speakers dryRun oracle now l st0).2.2.dispatches.Pairwise
      (fun a b => a.2 = true → a.1.title ≠ b.1.title) := by
  constructor
  · exact EmailCampaignManager.send_to_speaker_skip dryRun oracle now st s hs
  · apply EmailCampaignManager.process_speakers_inv
    · intro p hp
      rw [h0] at hp
      cases hp
    · rw [h0]
      exact List.Pairwise.nil

/-- C1 witness: with every dispatch succeeding, a second record for the
already-seen title "T" is skipped as an immediate success, and the
dispatch log of the whole run never repeats a title dispatched
successfully. -/
theorem C1_skip_seen_no_second_send_witness :
    EmailCampaignManager.send_to_speaker false (fun _ => true) "t"
      (⟨["T"], emptyData, [], []⟩ : RunState String) coSpeaker =
      (true, (⟨["T"], emptyData, [], []⟩ : RunState String)) ∧
    (EmailCampaignManager.process_speakers false (fun _ => true) "t"
        [plainSpeaker, coSpeaker] emptyRun).2.2.dispatches.Pairwise
      (fun a b => a.2 = true → a.1.title ≠ b.1.title) :=
  C1_skip_seen_no_second_send false (fun _ => true) "t" [plainSpeaker, coSpeaker]
    emptyRun ⟨["T"], emptyData, [], []⟩ coSpeaker rfl (by decide)

/-- C4 counterexample: a row with the single author name "Doe, Jane"
(one recorded author) parses to one record whose rendered message does
contain the co-author line — refuting "with a single author the rendered
message contains no co-author line". -/
theorem C4_counterexample :
    CsvParser.parse_row commaAuthorRow = [commaAuthorSpeaker] ∧
    (CsvParser.extract_authors commaAuthorRow).length = 1 ∧
    "👥 Coautores:".data <:+: (EmailTemplate.render commaAuthorSpeaker).data :=
  ⟨by decide, by decide,
   List.IsInfix.trans (by decide)
     (EmailTemplate.coLine_infix_render commaAuthorSpeaker (by decide))⟩

/-- C4 (amended): for every record whose name, title and theme do not
contain the marker character of the co-author line, the rendered message
contains the co-author line if and only if `all_authors` contains a comma
— which, for records parsed from rows whose author names are comma-free,
holds exactly when more than one author is recorded.  When the line is
present it carries the full comma-joined `all_authors` string; when it is
absent the template still leaves an empty line after the theme line
(rather than no blank line at all). -/
theorem C4_coauthor_line (s : Speaker)
    (hn : '👥' ∉ s.name.data) (ht : '👥' ∉ s.title.data) (hh : '👥' ∉ s.theme.data) :
    (("👥 Coautores:".data <:+: (EmailTemplate.render s).data) ↔ ',' ∈ s.all_authors.data) ∧
    (',' ∈ s.all_authors.data →
      ("\n👥 Coautores: " ++ s.all_authors).data <:+: (EmailTemplate.render s).data) ∧
    (',' ∉ s.all_authors.data →
      (s.theme ++ "\n\n\nFicamos").data <:+: (EmailTemplate.render s).data) := by
  have hpos : ',' ∈ s.all_authors.data →
      ("\n👥 Coautores: " ++ s.all_authors).data <:+: (EmailTemplate.render s).data :=
    EmailTemplate.coLine_infix_render s
  refine ⟨⟨?_, ?_⟩, hpos, EmailTemplate.blank_line_after_theme s⟩
  · intro hinf
    by_contra hm
    exact EmailTemplate.groupChar_not_mem_render s hm hn ht hh
      (hinf.subset (by decide))
  · intro hm
    have h1 : "👥 Coautores:".data <:+: ("\n👥 Coautores: " : String).data := by decide
    have h2 : ("\n👥 Coautores: " : String).data <:+:
        ("\n👥 Coautores: " ++ s.all_authors).data := by
      rw [String.data_append]
      exact (List.prefix_append _ _).isInfix
    exact (h1.trans h2).trans (hpos hm)

/-- C4 witness: for the two-author record, the rendered message contains
the co-author line. -/
theorem C4_coauthor_line_witness :
    "👥 Coautores:".data <:+: (EmailTemplate.render twoAuthorSpeaker).data :=
  (C4_coauthor_line twoAuthorSpeaker (by decide) (by decide) (by decide)).1.mpr (by decide)

/-- C5 counterexample: a configuration with an empty server host and an
empty sender display name — but sender address, password and sheet URL
present — validates with no diagnostic at all, and the run proceeds to
the fetch, refuting the claim that host and display name are required. -/
theorem C5_counterexample :
    EmailConfig.validate ⟨"", 587, "sender@example.com", "pw123", "",
      "https://docs.google.com/spreadsheets/d/abc"⟩ = [] ∧
    run_gate ⟨"", 587, "sender@example.com", "pw123", "",
      "https://docs.google.com/spreadsheets/d/abc"⟩ = .proceeded := by
  constructor
  · rfl
  · rfl

/-- C5 (amended): validation requires exactly the sender address, the
sender credentials and the roster source locator (server host/port and
display name are never checked): it emits one diagnostic line per missing
item among those three, the run aborts with those diagnostics — before
any fetch — whenever one of them is absent, and proceeds to the fetch
when all three are present. -/
theorem C5_required_settings (c : EmailConfig) :
    c.validate.length =
      (if c.sender_email = "" then 1 else 0) + (if c.sender_password = "" then 1 else 0) +
        (if c.sheet_url = "" then 1 else 0) ∧
    ((c.sender_email = "" ∨ c.sender_password = "" ∨ c.sheet_url = "") →
      run_gate c = .aborted c.validate) ∧
    (c.sender_email ≠ "" → c.sender_password ≠ "" → c.sheet_url ≠ "" →
      run_gate c = .proceeded) := by
  refine ⟨?_, ?_, ?_⟩
  · by_cases h1 : c.sender_email = "" <;> by_cases h2 : c.sender_password = "" <;>
      by_cases h3 : c.sheet_url = "" <;> simp [EmailConfig.validate, h1, h2, h3]
  · intro h
    have hne : c.validate ≠ [] := by
      rcases h with h | h | h <;>
        simp [EmailConfig.validate, h]
    simp [run_gate, hne]
  · intro h1 h2 h3
    simp [run_gate, EmailConfig.validate, h1, h2, h3]

/-- C5 witness: with the sender address missing, the run aborts with
exactly the one corresponding diagnostic and the fetch is not reached. -/
theorem C5_required_settings_witness :
    run_gate ⟨"smtp.gmail.com", 587, "", "pw123", "Equipe", "https://sheet"⟩ =
      .aborted ["Email do remetente (GMAIL_EMAIL) não configurado"] :=
  ((C5_required_settings ⟨"smtp.gmail.com", 587, "", "pw123", "Equipe", "https://sheet"⟩).2.1
      (Or.inl rfl)).trans (by decide)
